import Mathlib

/-
Verification development for the ngx-signalr-hubservice connection manager
(`src/ngx-signalr-hubservice.ts`, latest revision).

The TypeScript class `HubService` is shallowly embedded as follows.

* Asynchronous control flow of `invoke` is embedded as a process tree
  (`InvokeProc`): each await point of the source (waiting on the reconnect
  gate, awaiting a transport promise) becomes a continuation node.  The
  function `runProc` executes such a tree against an environment supplying
  the gate resolutions and the transport's responses, and records the
  externally visible events (gate resolutions observed, transport calls
  issued) in order.

* The connection lifecycle (`_connect`, the four transport callbacks,
  `tryReconnect`) is embedded as state-passing functions over `HubState`,
  each returning the successor state together with the list of emitted
  events (`LEv`).  The transport's `start()` outcomes are supplied by the
  environment as an `Except Unit Bool` per attempt (`.error` = the start
  promise rejected, `.ok b` = it resolved and the `connected` getter then
  reads `b`).  `tryReconnect` loops forever in the source; here it consumes
  a finite list of attempt outcomes and returns `none` when the list is
  exhausted before a successful attempt.

* The listener registry (`unregister`, `hubMessageReceived`) is embedded
  over an events map `String -> Option (List Listener)`; a listener's
  behaviour (returning normally or throwing) is supplied by the
  environment as an `Except String Unit`.
-/

namespace HubService

/-- JavaScript values as far as the claims need them: strings, numbers and
arrays (arrays are needed because the retry path of `invoke` passes the
rest-argument array as a single value). -/
inductive JsVal where
  | str : String → JsVal
  | num : Nat → JsVal
  | arr : List JsVal → JsVal

mutual

def JsVal.decEq : (a b : JsVal) → Decidable (a = b)
  | .str x, .str y =>
    if h : x = y then .isTrue (by rw [h]) else .isFalse (by simp [h])
  | .num x, .num y =>
    if h : x = y then .isTrue (by rw [h]) else .isFalse (by simp [h])
  | .arr x, .arr y =>
    match JsVal.decEqList x y with
    | .isTrue h => .isTrue (by rw [h])
    | .isFalse h => .isFalse (fun hc => h (by injection hc))
  | .str _, .num _ => .isFalse (fun h => JsVal.noConfusion h)
  | .str _, .arr _ => .isFalse (fun h => JsVal.noConfusion h)
  | .num _, .str _ => .isFalse (fun h => JsVal.noConfusion h)
  | .num _, .arr _ => .isFalse (fun h => JsVal.noConfusion h)
  | .arr _, .str _ => .isFalse (fun h => JsVal.noConfusion h)
  | .arr _, .num _ => .isFalse (fun h => JsVal.noConfusion h)

def JsVal.decEqList : (a b : List JsVal) → Decidable (a = b)
  | [], [] => .isTrue rfl
  | [], _ :: _ => .isFalse (fun h => List.noConfusion h)
  | _ :: _, [] => .isFalse (fun h => List.noConfusion h)
  | x :: xs, y :: ys =>
    match JsVal.decEq x y, JsVal.decEqList xs ys with
    | .isTrue h1, .isTrue h2 => .isTrue (by rw [h1, h2])
    | .isFalse h1, _ => .isFalse (fun hc => h1 (by injection hc))
    | _, .isFalse h2 => .isFalse (fun hc => h2 (by injection hc))

end

instance : DecidableEq JsVal := JsVal.decEq

instance : DecidableEq (Except JsVal JsVal) := fun a b =>
  match a, b with
  | .ok x, .ok y =>
    if h : x = y then .isTrue (by rw [h]) else .isFalse (by simp [h])
  | .error x, .error y =>
    if h : x = y then .isTrue (by rw [h]) else .isFalse (by simp [h])
  | .ok _, .error _ => .isFalse (fun h => Except.noConfusion h)
  | .error _, .ok _ => .isFalse (fun h => Except.noConfusion h)

/-- Events observable while running one `invoke` call: a gate resolution
being observed by the waiting call, and a call being issued to the
transport (`hubProxy.invoke`). -/
inductive IEv where
  | gateRes (g : Nat) (b : Bool)
  | callEv (hub method : String) (args : List JsVal)
deriving DecidableEq

/-- The asynchronous control flow of one `invoke` call, one node per await
point of the source. -/
inductive InvokeProc where
  | done (res : Except JsVal JsVal)
  | gated (g : Nat) (cont : Bool → InvokeProc)
  | call (hub method : String) (args : List JsVal)
      (cont : Except JsVal JsVal → Option Nat → InvokeProc)

/-- The gated branch of `invoke` (source lines 396-404): wait on the
reconnect gate; on `false`, `Observable.throw("SignalR disconnected")`;
on `true`, `from(hubContainer.hubProxy.invoke(method, ...args))` whose
outcome (resolution or rejection) is passed through unchanged. -/
def gatedInvoke (g : Nat) (hub method : String) (args : List JsVal) : InvokeProc :=
  .gated g (fun connected =>
    if !connected then
      .done (.error (.str "SignalR disconnected"))
    else
      .call hub method args (fun resp _ => .done resp))

/-- `HubService.invoke` (source lines 391-419).  `proxies` is the set of
keys of `this.hubProxies`; `gate` is `this.reconnectingObservable` at call
time (`some g` identifies the Subject instance).  In the ungated branch the
transport call's rejection handler re-reads the gate (second argument of
the continuation) and, when a gate has appeared, re-enters `invoke` as
`this.invoke(hubName, method, args)` — the rest-argument array `args` is
passed as a single value, so the inner call runs the gated branch with the
wrapped argument list `[JsVal.arr args]`.  The synchronous
`throw new Error("Invalid hub name ...")` is modelled as an error result. -/
def invoke (proxies : List String) (gate : Option Nat) (hub method : String)
    (args : List JsVal) : InvokeProc :=
  if hub ∈ proxies then
    match gate with
    | some g => gatedInvoke g hub method args
    | none =>
      .call hub method args (fun resp gateNow =>
        match resp with
        | .ok v => .done (.ok v)
        | .error err =>
          match gateNow with
          | some g => gatedInvoke g hub method [JsVal.arr args]
          | none => .done (.error err))
  else
    .done (.error (.str ("Invalid hub name " ++ hub)))

/-- Execute an invoke process against an environment: `gv g` is the value
the gate Subject `g` resolves with, `tr m a` is the transport's response to
`hubProxy.invoke(m, a)`, and `gar` is the gate observed at the time a
transport rejection is handled.  Returns the call's outcome and the event
trace in temporal order. -/
def runProc (gv : Nat → Bool) (tr : String → List JsVal → Except JsVal JsVal)
    (gar : Option Nat) : InvokeProc → Except JsVal JsVal × List IEv
  | .done r => (r, [])
  | .gated g cont =>
    let rest := runProc gv tr gar (cont (gv g))
    (rest.1, .gateRes g (gv g) :: rest.2)
  | .call h m a cont =>
    let rest := runProc gv tr gar (cont (tr m a) gar)
    (rest.1, .callEv h m a :: rest.2)

/-- The mutable fields of `HubService` that the lifecycle claims are about.
`connected` mirrors the `connected` getter (the transport-reported state);
`gate` is `this.reconnectingObservable`, with `some g` identifying the
Subject instance by a generation number (`nextGate` supplies fresh ones);
`attemptReconnects` is `this.options.attemptReconnects`. -/
structure HubState where
  connected : Bool
  errorConnecting : Bool
  tryingReconnect : Bool
  gate : Option Nat
  nextGate : Nat
  attemptReconnects : Bool
deriving DecidableEq

/-- Lifecycle events, in emission order: the four EventEmitter emissions,
gate (Subject) creation and resolution, and a `connection.start()` call. -/
inductive LEv where
  | emitConnected (b : Bool)
  | emitDisconnected (b : Bool)
  | emitReconnecting
  | emitReconnected (b : Bool)
  | gateCreated (g : Nat)
  | gateNext (g : Nat) (b : Bool)
  | transportStart
deriving DecidableEq

/-- `connectedCallback` (source lines 299-302):
`this._errorConnecting = !this.connected; this.connectedEmitter.emit(this.connected)`. -/
def connectedCallback (s : HubState) : HubState × List LEv :=
  ({ s with errorConnecting := !s.connected }, [.emitConnected s.connected])

/-- `connectionErrorCallback` (source lines 305-309): sets the error flag,
emits the disconnected event, and replaces the failure by `of(false)`
(the `false` is returned by `startPipeline`). -/
def connectionErrorCallback (s : HubState) : HubState × List LEv :=
  ({ s with errorConnecting := true }, [.emitDisconnected s.connected])

/-- The observable pipeline of `_connect` (source lines 220-224):
`from(this._connection.start()).pipe(map(value => this.connected),
tap(this.connectedCallback), catchError(this.connectionErrorCallback))`.
`outcome` is the transport's behaviour: `.ok b` means `start()` resolved
and the `connected` getter then reads `b`; `.error` means it rejected.
Returns the boolean the observable resolves with. -/
def startPipeline (outcome : Except Unit Bool) (s : HubState) :
    Bool × HubState × List LEv :=
  match outcome with
  | .ok b =>
    let s1 := { s with connected := b }
    let r := connectedCallback s1
    (b, r.1, .transportStart :: r.2)
  | .error _ =>
    let s1 := { s with connected := false }
    let r := connectionErrorCallback s1
    (false, r.1, .transportStart :: r.2)

/-- Result of `_connect`: either a single-shot resolution with a boolean,
or the caller was handed the currently open reconnect gate `g`
(`this.reconnectingObservable.asObservable()`). -/
inductive ConnectResult where
  | resolved (b : Bool)
  | waitGate (g : Nat)
deriving DecidableEq

/-- `HubService._connect` (source lines 211-225): if `ignoreReconnecting`
is false and a reconnect gate is open, return that gate; otherwise start
the transport and run the pipeline.  (The `initConnection` branch only
builds proxies and wires callbacks; it does not touch the fields of
`HubState`, so it is not modelled separately.) -/
def _connect (ignoreReconnecting : Bool) (outcome : Except Unit Bool)
    (s : HubState) : ConnectResult × HubState × List LEv :=
  match ignoreReconnecting, s.gate with
  | false, some g => (.waitGate g, s, [])
  | _, _ =>
    let r := startPipeline outcome s
    (.resolved r.1, r.2)

/-- `HubService.connect` (source lines 202-209): records the options
(only `attemptReconnects` matters here) and calls `_connect(false)`. -/
def connect (attemptReconnects : Bool) (outcome : Except Unit Bool)
    (s : HubState) : ConnectResult × HubState × List LEv :=
  _connect false outcome { s with attemptReconnects := attemptReconnects }

/-- `recconectingCallback` (source lines 336-339): emits the reconnecting
event and installs a fresh gate Subject (without resolving any previous one). -/
def recconectingCallback (s : HubState) : HubState × List LEv :=
  ({ s with gate := some s.nextGate, nextGate := s.nextGate + 1 },
   [.emitReconnecting, .gateCreated s.nextGate])

/-- `reconnectedCallback` (source lines 320-325): emits reconnected then
connected, resolves the current gate Subject with `this.connected`, and
clears the gate.  (When the gate is null the source would fail on the
`next` call; that path is never reached in the modelled runs.) -/
def reconnectedCallback (s : HubState) : HubState × List LEv :=
  ({ s with gate := none },
   [.emitReconnected s.connected, .emitConnected s.connected] ++
     (match s.gate with
      | some g => [.gateNext g s.connected]
      | none => []))

/-- `tryReconnect` (source lines 363-376): set `tryingReconnect`, install a
fresh gate Subject, run `_connect(this.options.attemptReconnects)`; on a
`false` resolution wait and recurse (the fixed delay is not observable
here), on `true` run `reconnectedCallback` and clear `tryingReconnect`.
`attempts` supplies the transport outcome of each successive attempt; the
source retries forever, so exhausting the list yields `none`.  The
`waitGate` case is unreachable in the modelled runs since `tryReconnect`
only runs with `attemptReconnects = true`. -/
def tryReconnect (attempts : List (Except Unit Bool)) (s : HubState) :
    Option (HubState × List LEv) :=
  match attempts with
  | [] => none
  | a :: rest =>
    let s1 := { s with tryingReconnect := true, gate := some s.nextGate,
                       nextGate := s.nextGate + 1 }
    let ev0 : List LEv := [.gateCreated s.nextGate]
    let r := _connect s.attemptReconnects a s1
    match r.1 with
    | .waitGate _ => none
    | .resolved b =>
      if b then
        let r2 := reconnectedCallback r.2.1
        some ({ r2.1 with tryingReconnect := false }, ev0 ++ r.2.2 ++ r2.2)
      else
        match tryReconnect rest r.2.1 with
        | none => none
        | some r3 => some (r3.1, ev0 ++ r.2.2 ++ r3.2)

/-- `disconnectedCallback` (source lines 350-358): ignored while a
reconnect is already running; otherwise emits the disconnected event and,
when `attemptReconnects` is set, enters `tryReconnect`. -/
def disconnectedCallback (attempts : List (Except Unit Bool)) (s : HubState) :
    Option (HubState × List LEv) :=
  if s.tryingReconnect then some (s, [])
  else
    let ev : List LEv := [.emitDisconnected s.connected]
    if s.attemptReconnects then
      match tryReconnect attempts s with
      | none => none
      | some r => some (r.1, ev ++ r.2)
    else some (s, ev)

/-- The reconnect scenario of the spec: the transport reports an unexpected
disconnect (the `connected` getter now reads false, then the disconnected
hook fires); `n` reconnect attempts fail, the next one succeeds. -/
def reconnectScenario (n : Nat) (s : HubState) : Option (HubState × List LEv) :=
  disconnectedCallback (List.replicate n (Except.error ()) ++ [Except.ok true])
    { s with connected := false }

/-- Gate resolutions contained in a lifecycle trace, in order. -/
def gateNextsOf : List LEv → List (Nat × Bool)
  | [] => []
  | .gateNext g b :: rest => (g, b) :: gateNextsOf rest
  | _ :: rest => gateNextsOf rest

/-- Number of `connected` emissions in a lifecycle trace. -/
def countConnected (evs : List LEv) : Nat :=
  (evs.filter fun e => match e with
    | .emitConnected _ => true
    | _ => false).length

/-- Number of `reconnected` emissions in a lifecycle trace. -/
def countReconnected (evs : List LEv) : Nat :=
  (evs.filter fun e => match e with
    | .emitReconnected _ => true
    | _ => false).length

/-- Number of `connection.start()` calls in a lifecycle trace. -/
def countStarts (evs : List LEv) : Nat :=
  (evs.filter fun e => match e with
    | .transportStart => true
    | _ => false).length

/-- The head gate of an invoke process: `some g` when the call's first
action is to wait on gate `g` (nothing reaches the transport before that
gate resolves). -/
def gateOfProc : InvokeProc → Option Nat
  | .gated g _ => some g
  | _ => none

/-- The source's `eventType = { thisObj, callback }`: a listener is a
(subscriber instance, method) pair; both are identified by numbers so that
the source's identity comparison `event.thisObj !== instance` is equality
of identities. -/
structure Listener where
  thisObj : Nat
  callbackId : Nat
deriving DecidableEq

/-- One entry of `HubProperties.subscriptions`. -/
structure Subscription where
  eventName : String
  functionName : String
deriving DecidableEq

/-- The source's `eventsType`: the per-hub map from event name to listener
list (`undefined` for events never wired by `createHubProxy`). -/
abbrev EventsMap := String → Option (List Listener)

/-- Assignment `proxy.events[e] = l`. -/
def setEvents (m : EventsMap) (e : String) (l : List Listener) : EventsMap :=
  fun x => if x = e then some l else m x

/-- The inner removal loop of `unregister` (source lines 499-505): walk the
listener list downwards from index `i - 1`, and `splice(i, 1)` every entry
whose `thisObj` is the instance being unregistered.  Called with
`i = events.length`. -/
def unregLoop (inst : Nat) : List Listener → Nat → List Listener
  | evs, 0 => evs
  | evs, i + 1 =>
    if h : i < evs.length then
      if (evs.get ⟨i, h⟩).thisObj == inst then
        unregLoop inst (evs.eraseIdx i) i
      else
        unregLoop inst evs i
    else
      unregLoop inst evs i

/-- `HubService.unregister` (source lines 487-507), restricted to the
events map of the instance's hub proxy: for each declared subscription,
skip it when the proxy has no list for that event (`events == null`),
otherwise run the removal loop on that list. -/
def unregister (subs : List Subscription) (inst : Nat) (m : EventsMap) :
    EventsMap :=
  match subs with
  | [] => m
  | sub :: rest =>
    match m sub.eventName with
    | none => unregister rest inst m
    | some evs =>
      unregister rest inst
        (setEvents m sub.eventName (unregLoop inst evs evs.length))

/-- The dispatch loop of `hubMessageReceived` (source lines 520-527): call
every listener in list order with the inbound arguments, each call wrapped
in try/catch; a throwing callback adds a log line and the loop continues.
`behave` is the callbacks' behaviour (`.error` = the callback throws).
Returns the calls made (listener, arguments) in order, and the log lines. -/
def dispatchList (behave : Listener → List JsVal → Except String Unit)
    (args : List JsVal) : List Listener →
    List (Listener × List JsVal) × List String
  | [] => ([], [])
  | l :: ls =>
    let rest := dispatchList behave args ls
    match behave l args with
    | .ok _ => ((l, args) :: rest.1, rest.2)
    | .error e => ((l, args) :: rest.1, ("Hub callback error: " ++ e) :: rest.2)

/-- `HubService.hubMessageReceived` (source lines 515-528): a hub name with
no proxy returns silently (no calls); a wired proxy whose events map has no
list for the event would make the source iterate `undefined` (a thrown
TypeError), modelled as `none`; otherwise the dispatch loop runs. -/
def hubMessageReceived (proxies : String → Option EventsMap)
    (behave : Listener → List JsVal → Except String Unit)
    (hub ev : String) (args : List JsVal) :
    Option (List (Listener × List JsVal) × List String) :=
  match proxies hub with
  | none => some ([], [])
  | some events =>
    match events ev with
    | none => none
    | some evs => some (dispatchList behave args evs)

/-- A freshly constructed service after `connect({attemptReconnects: true})`
was issued but before anything succeeded. -/
def initialState : HubState := ⟨false, false, false, none, 0, true⟩

/-- A service whose `connect({attemptReconnects: true})` has succeeded. -/
def connectedState : HubState := ⟨true, false, false, none, 0, true⟩

/-- A connected service with `attemptReconnects` left at its default
(`false`). -/
def noReconnectState : HubState := ⟨true, false, false, none, 0, false⟩

/-- The state while the first reconnect attempt of `tryReconnect` is in
flight, starting from `connectedState` after an unexpected disconnect:
`tryingReconnect` is set and gate Subject 0 is installed. -/
def midReconnectState : HubState := ⟨false, false, true, some 0, 1, true⟩

/-- A transport that rejects the call `invoke("send", "alice", "hi")` (the
connection dropped mid-call) but answers any other argument list — in
particular the wrapped list the retry path produces. -/
def lostArgsTransport : String → List JsVal → Except JsVal JsVal :=
  fun _ a =>
    if a = [JsVal.str "alice", JsVal.str "hi"] then
      .error (.str "connection lost")
    else
      .ok (.num 7)

/-- Two listeners on the same event, owned by instances 1 and 2. -/
def demoEvents : EventsMap :=
  setEvents (fun _ => none) "messageReceived" [⟨1, 1⟩, ⟨2, 2⟩]

/-- A proxies table with one hub, `chatHub`. -/
def demoProxies : String → Option EventsMap :=
  fun h => if h = "chatHub" then some demoEvents else none

/-- Callback behaviour where the listener owned by instance 1 throws and
every other listener returns normally. -/
def demoBehave : Listener → List JsVal → Except String Unit :=
  fun l _ => if l.thisObj = 1 then .error "boom" else .ok ()

theorem dispatchList_calls (behave : Listener → List JsVal → Except String Unit)
    (args : List JsVal) (evs : List Listener) :
    (dispatchList behave args evs).1 = evs.map (fun l => (l, args)) := by
  induction evs with
  | nil => rfl
  | cons l ls ih =>
    cases hb : behave l args <;> simp [dispatchList, hb, ih]

/-- Claim C1: an `invoke` made while a reconnect gate is open issues
nothing to the transport until the gate resolves (the trace begins with the
gate resolution); if the gate resolves true the call is then issued and its
outcome is exactly the transport's own response, and if it resolves false
the call fails with the disconnected error without any transport call. -/
theorem invoke_gated_waits_for_gate (p : List String) (g : Nat)
    (hub method : String) (args : List JsVal) (gv : Nat → Bool)
    (tr : String → List JsVal → Except JsVal JsVal) (gar : Option Nat)
    (hp : hub ∈ p) :
    runProc gv tr gar (invoke p (some g) hub method args) =
      if gv g = true then
        (tr method args, [.gateRes g true, .callEv hub method args])
      else
        (.error (.str "SignalR disconnected"), [.gateRes g false]) := by
  cases hg : gv g <;> simp [invoke, hp, gatedInvoke, runProc, hg]

theorem invoke_gated_waits_for_gate_witness :
    ("chatHub" ∈ ["chatHub"]) ∧
    runProc (fun _ => true) (fun _ _ => .ok (.num 7)) none
        (invoke ["chatHub"] (some 0) "chatHub" "send" [.str "x"]) =
      (.ok (.num 7), [.gateRes 0 true, .callEv "chatHub" "send" [.str "x"]]) := by
  refine ⟨by decide, ?_⟩
  have h := invoke_gated_waits_for_gate ["chatHub"] 0 "chatHub" "send"
    [.str "x"] (fun _ => true) (fun _ _ => .ok (.num 7)) none (by decide)
  simpa using h

/-- Claim C2, counterexample: with `attemptReconnects` false the service
observes a disconnect (the disconnected event is emitted, no reconnect ever
runs, the gate stays null), yet a subsequent `invoke` issues the transport
call immediately — the first trace event is the wire call, even though the
transport then rejects it. -/
theorem invoke_after_disconnect_reaches_wire_cex :
    disconnectedCallback [] { noReconnectState with connected := false } =
      some ({ noReconnectState with connected := false }, [.emitDisconnected false]) ∧
    ({ noReconnectState with connected := false } : HubState).gate = none ∧
    (runProc (fun _ => false) (fun _ _ => .error (.str "connection is down")) none
        (invoke ["chatHub"] none "chatHub" "send" [.str "x"])).2.head? =
      some (.callEv "chatHub" "send" [.str "x"]) := by decide

/-- Claim C3: in the scenario where three reconnect attempts fail and the
fourth succeeds, the only gate Subject ever resolved is the fourth one
(generation 3); an `invoke` issued during attempt 1 waits on gate 0, which
is replaced by the retry without ever being resolved, so that call is never
resolved — contradicting the spec and the source's own doc comment that a
call made while disconnected is sent when the connection returns. -/
theorem reconnect_gate_orphaned_bug :
    (reconnectScenario 3 connectedState).map (fun r => gateNextsOf r.2) =
      some [(3, true)] ∧
    gateOfProc (invoke ["chatHub"] (some 0) "chatHub" "send" [.str "x"]) =
      some 0 ∧
    (reconnectScenario 3 connectedState).map
        (fun r => ((gateNextsOf r.2).map Prod.fst).contains 0) = some false := by
  decide

/-- Claim C4: when the transport rejects an ungated call and a gate has
appeared, the source retries via `this.invoke(hubName, method, args)`,
passing the rest-argument array as a single value — the retried transport
call receives the wrapped list `[arr ["alice","hi"]]`, not the original
arguments `"alice", "hi"`. -/
theorem invoke_retry_wraps_args_bug :
    runProc (fun _ => true) lostArgsTransport (some 5)
        (invoke ["chatHub"] none "chatHub" "send" [.str "alice", .str "hi"]) =
      (.ok (.num 7),
       [.callEv "chatHub" "send" [.str "alice", .str "hi"],
        .gateRes 5 true,
        .callEv "chatHub" "send" [.arr [.str "alice", .str "hi"]]]) ∧
    [JsVal.arr [.str "alice", .str "hi"]] ≠ [JsVal.str "alice", JsVal.str "hi"] := by
  decide

/-- Claim C5, counterexample: a `connect()` issued while reconnect attempt
1 (gate 0) is in flight is handed gate 0 (and starts no transport
connection), but when attempt 1 fails and attempt 2 succeeds, the run's
only gate resolution is on gate 1 — gate 0 never resolves, so the caller
never observes the existing attempt's `false` outcome. -/
theorem connect_during_failed_attempt_cex :
    (connect true (.ok true) midReconnectState).1 = .waitGate 0 ∧
    countStarts (connect true (.ok true) midReconnectState).2.2 = 0 ∧
    (tryReconnect [.error (), .ok true] initialState).map
        (fun r => gateNextsOf r.2) = some [(1, true)] := by
  decide

/-- Claim C6, counterexample: in the three-failures-then-success scenario,
exactly one reconnected emission fires but two connected emissions fire
(one from the connect pipeline's connected callback, one from the
reconnected callback) — not exactly one. -/
theorem reconnect_two_connected_emits_cex :
    (reconnectScenario 3 connectedState).map
        (fun r => (countReconnected r.2, countConnected r.2)) = some (1, 2) ∧
    (reconnectScenario 3 connectedState).map (fun r => countConnected r.2) ≠
      some 1 := by
  decide

/-- Claim C7: a `connect()` whose transport `start()` rejects resolves with
the value false (the failure is replaced by `of(false)`, not re-thrown) and
sets `errorConnecting`. -/
theorem connect_failure_resolves_false (ar : Bool) (s : HubState)
    (hg : s.gate = none) :
    connect ar (.error ()) s =
      (.resolved false,
       { s with attemptReconnects := ar, connected := false,
                errorConnecting := true },
       [.transportStart, .emitDisconnected false]) := by
  simp [connect, _connect, hg, startPipeline, connectionErrorCallback]

theorem connect_failure_resolves_false_witness :
    initialState.gate = none ∧
    connect true (.error ()) initialState =
      (.resolved false,
       { initialState with attemptReconnects := true, connected := false,
                           errorConnecting := true },
       [.transportStart, .emitDisconnected false]) :=
  ⟨rfl, connect_failure_resolves_false true initialState rfl⟩

/-- Claim C8: dispatch of an inbound event calls every listener of the
(hub, event) list in list order with the original inbound arguments, no
matter which listeners throw (each call is inside its own try/catch), and
the dispatch itself returns normally — a throwing listener neither stops
later listeners nor propagates its error. -/
theorem dispatch_isolated_failure (proxies : String → Option EventsMap)
    (behave : Listener → List JsVal → Except String Unit) (hub ev : String)
    (args : List JsVal) (events : EventsMap) (evs : List Listener)
    (h1 : proxies hub = some events) (h2 : events ev = some evs)
    (_h3 : 2 ≤ evs.length) :
    hubMessageReceived proxies behave hub ev args =
      some (evs.map (fun l => (l, args)), (dispatchList behave args evs).2) := by
  simp [hubMessageReceived, h1, h2, ← dispatchList_calls behave args evs]

theorem dispatch_isolated_failure_witness :
    demoProxies "chatHub" = some demoEvents ∧
    demoEvents "messageReceived" = some [⟨1, 1⟩, ⟨2, 2⟩] ∧
    2 ≤ ([⟨1, 1⟩, ⟨2, 2⟩] : List Listener).length ∧
    hubMessageReceived demoProxies demoBehave "chatHub" "messageReceived"
        [.str "alice", .str "hi"] =
      some (([⟨1, 1⟩, ⟨2, 2⟩] : List Listener).map
              (fun l => (l, [JsVal.str "alice", JsVal.str "hi"])),
            (dispatchList demoBehave [.str "alice", .str "hi"]
              [⟨1, 1⟩, ⟨2, 2⟩]).2) :=
  ⟨rfl, rfl, by decide,
   dispatch_isolated_failure demoProxies demoBehave "chatHub"
     "messageReceived" [.str "alice", .str "hi"] demoEvents
     [⟨1, 1⟩, ⟨2, 2⟩] rfl rfl (by decide)⟩

/-- Claim C10, counterexample: a failed initial connect sets
`errorConnecting`, but after the transport disconnect triggers a reconnect
whose attempt succeeds, the connect pipeline's connected callback recomputes
the flag to the negation of `connected` — so the later successful reconnect
clears it back to false. -/
theorem errorConnecting_cleared_by_reconnect_cex :
    (_connect false (.error ()) initialState).2.1.errorConnecting = true ∧
    (disconnectedCallback [.ok true]
        ((_connect false (.error ()) initialState).2.1)).map
      (fun r => r.1.errorConnecting) = some false := by
  decide

theorem unregLoop_take_drop (inst : Nat) :
    ∀ (i : Nat) (evs : List Listener), i ≤ evs.length →
    unregLoop inst evs i =
      (evs.take i).filter (fun x => x.thisObj != inst) ++ evs.drop i := by
  intro i
  induction i with
  | zero => intro evs _; simp [unregLoop]
  | succ i ih =>
    intro evs h
    have hi : i < evs.length := Nat.lt_of_succ_le h
    rw [unregLoop, dif_pos hi]
    by_cases hb : (evs.get ⟨i, hi⟩).thisObj == inst
    · rw [if_pos hb]
      have hb' : (evs[i].thisObj == inst) = true := by
        simpa [List.get_eq_getElem] using hb
      have hpred : (evs[i].thisObj != inst) = false := by
        simp [bne, hb']
      have hlen : i ≤ (evs.eraseIdx i).length := by
        rw [List.length_eraseIdx_of_lt hi]; omega
      rw [ih (evs.eraseIdx i) hlen]
      rw [List.eraseIdx_eq_take_drop_succ]
      have htk : ((evs.take i ++ evs.drop (i + 1)).take i) = evs.take i := by
        rw [List.take_append_of_le_length (by simp; omega)]
        simp [List.take_take]
      have hdp : ((evs.take i ++ evs.drop (i + 1)).drop i) = evs.drop (i + 1) := by
        rw [List.drop_append_of_le_length (by simp; omega)]
        have hnil : (evs.take i).drop i = [] :=
          List.drop_of_length_le (by simp)
        simp [hnil]
      have hstep : (evs.take (i + 1)).filter (fun x => x.thisObj != inst) =
          (evs.take i).filter (fun x => x.thisObj != inst) := by
        rw [List.take_succ, List.getElem?_eq_getElem hi]
        simp only [Option.toList_some, List.filter_append, List.filter_cons]
        rw [hpred]
        simp
      rw [htk, hdp, hstep]
    · rw [if_neg hb]
      have hb' : (evs[i].thisObj == inst) = false := by
        simpa [List.get_eq_getElem] using hb
      have hpred : (evs[i].thisObj != inst) = true := by
        simp [bne, hb']
      rw [ih evs (Nat.le_of_lt hi)]
      have hstep : (evs.take (i + 1)).filter (fun x => x.thisObj != inst) =
          (evs.take i).filter (fun x => x.thisObj != inst) ++ [evs[i]] := by
        rw [List.take_succ, List.getElem?_eq_getElem hi]
        simp only [Option.toList_some, List.filter_append, List.filter_cons]
        rw [hpred]
        simp
      rw [List.drop_eq_getElem_cons hi, hstep]
      simp

theorem unregLoop_filter (inst : Nat) (evs : List Listener) :
    unregLoop inst evs evs.length = evs.filter (fun x => x.thisObj != inst) := by
  have h := unregLoop_take_drop inst evs.length evs le_rfl
  simpa using h

theorem unregister_cons_none {sub : Subscription} {rest : List Subscription}
    {inst : Nat} {m : EventsMap} (hm : m sub.eventName = none) :
    unregister (sub :: rest) inst m = unregister rest inst m := by
  simp only [unregister, hm]

theorem unregister_cons_some {sub : Subscription} {rest : List Subscription}
    {inst : Nat} {m : EventsMap} {evs : List Listener}
    (hm : m sub.eventName = some evs) :
    unregister (sub :: rest) inst m =
      unregister rest inst
        (setEvents m sub.eventName (unregLoop inst evs evs.length)) := by
  simp only [unregister, hm]

theorem unregister_apply (inst : Nat) :
    ∀ (subs : List Subscription) (m : EventsMap) (e : String),
    unregister subs inst m e =
      match m e with
      | none => none
      | some l =>
        if e ∈ subs.map Subscription.eventName then
          some (l.filter fun x => x.thisObj != inst)
        else
          some l := by
  intro subs
  induction subs with
  | nil =>
    intro m e
    simp only [unregister]
    cases hme : m e <;> simp
  | cons sub rest ih =>
    intro m e
    cases hm : m sub.eventName with
    | none =>
      rw [unregister_cons_none hm, ih]
      by_cases he : e = sub.eventName
      · subst he
        simp [hm]
      · simp only [List.map_cons, List.mem_cons]
        cases hme : m e <;> simp [he]
    | some evs =>
      rw [unregister_cons_some hm, ih, unregLoop_filter]
      by_cases he : e = sub.eventName
      · subst he
        simp only [setEvents, if_pos rfl, hm, List.map_cons, List.mem_cons,
          true_or, if_true]
        by_cases hr : sub.eventName ∈ rest.map Subscription.eventName
        · simp [hr, List.filter_filter, Bool.and_self]
        · simp [hr]
      · simp only [setEvents, if_neg he, List.map_cons, List.mem_cons]
        cases hme : m e <;> simp [he]

/-- Claim C9: `unregister(instance)` removes, by identity of the owning
instance, every listener owned by that instance from the lists of all its
declared events (the descending splice loop is extensionally a filter),
leaves every other listener — other instances on the same events, and all
undeclared events — unchanged and in order, and afterwards no dispatch on
any event reaches a callback owned by that instance (given that, as
`register` guarantees, the instance's listeners sat only under its declared
events). -/
theorem unregister_removes_only_instance (subs : List Subscription)
    (inst : Nat) (m : EventsMap)
    (behave : Listener → List JsVal → Except String Unit) (args : List JsVal)
    (hclean : ∀ e l, e ∉ subs.map Subscription.eventName → m e = some l →
      ∀ x ∈ l, x.thisObj ≠ inst) :
    (∀ e l, m e = some l → e ∈ subs.map Subscription.eventName →
      unregister subs inst m e = some (l.filter fun x => x.thisObj != inst)) ∧
    (∀ e, e ∉ subs.map Subscription.eventName →
      unregister subs inst m e = m e) ∧
    (∀ e l', unregister subs inst m e = some l' →
      ∀ c ∈ (dispatchList behave args l').1, c.1.thisObj ≠ inst) := by
  refine ⟨?_, ?_, ?_⟩
  · intro e l hml hmem
    rw [unregister_apply, hml]
    simp [hmem]
  · intro e hmem
    rw [unregister_apply]
    cases hme : m e <;> simp [hmem]
  · intro e l' hl' c hc
    rw [dispatchList_calls] at hc
    simp only [List.mem_map] at hc
    obtain ⟨x, hx, hxc⟩ := hc
    rw [unregister_apply] at hl'
    cases hme : m e with
    | none => rw [hme] at hl'; exact absurd hl' (by simp)
    | some l =>
      rw [hme] at hl'
      by_cases hmem : e ∈ subs.map Subscription.eventName
      · simp only [hmem, if_true, Option.some_inj] at hl'
        subst hl'
        have hpred := List.of_mem_filter hx
        rw [← hxc]
        simpa [bne] using hpred
      · simp only [hmem, if_false, Option.some_inj] at hl'
        subst hl'
        rw [← hxc]
        exact hclean e l hmem hme x hx

theorem unregister_removes_only_instance_witness :
    (∀ e l, e ∉ ([⟨"messageReceived", "onMessage"⟩] : List Subscription).map
        Subscription.eventName → demoEvents e = some l →
        ∀ x ∈ l, x.thisObj ≠ 1) ∧
    ((∀ e l, demoEvents e = some l →
        e ∈ ([⟨"messageReceived", "onMessage"⟩] : List Subscription).map
          Subscription.eventName →
        unregister [⟨"messageReceived", "onMessage"⟩] 1 demoEvents e =
          some (l.filter fun x => x.thisObj != 1)) ∧
     (∀ e, e ∉ ([⟨"messageReceived", "onMessage"⟩] : List Subscription).map
          Subscription.eventName →
        unregister [⟨"messageReceived", "onMessage"⟩] 1 demoEvents e =
          demoEvents e) ∧
     (∀ e l', unregister [⟨"messageReceived", "onMessage"⟩] 1 demoEvents e =
          some l' →
        ∀ c ∈ (dispatchList demoBehave [JsVal.str "alice"] l').1,
          c.1.thisObj ≠ 1)) := by
  have hclean : ∀ e l, e ∉ ([⟨"messageReceived", "onMessage"⟩] :
      List Subscription).map Subscription.eventName → demoEvents e = some l →
      ∀ x ∈ l, x.thisObj ≠ 1 := by
    intro e l hmem hml
    exfalso
    simp only [List.map_cons, List.map_nil, List.mem_cons,
      List.not_mem_nil] at hmem
    have he : e ≠ "messageReceived" := by
      intro h; exact hmem (Or.inl h)
    simp [demoEvents, setEvents, he] at hml
  exact ⟨hclean,
    unregister_removes_only_instance [⟨"messageReceived", "onMessage"⟩] 1
      demoEvents demoBehave [JsVal.str "alice"] hclean⟩

theorem tryReconnect_error_cons (s : HubState) (hs : s.attemptReconnects = true)
    (rest : List (Except Unit Bool)) :
    tryReconnect (Except.error () :: rest) s =
      (tryReconnect rest
        { s with tryingReconnect := true, gate := some s.nextGate, nextGate := s.nextGate + 1, connected := false, errorConnecting := true }).map
        (fun r => (r.1, [LEv.gateCreated s.nextGate, LEv.transportStart,
          LEv.emitDisconnected false] ++ r.2)) := by
  rw [tryReconnect]
  simp only [hs]
  simp only [_connect, startPipeline, connectionErrorCallback]
  cases htr : tryReconnect rest
    { s with tryingReconnect := true, gate := some s.nextGate, nextGate := s.nextGate + 1, connected := false, errorConnecting := true, attemptReconnects := true } <;>
    simp [htr]

theorem tryReconnect_ok_true (s : HubState) (hs : s.attemptReconnects = true)
    (rest : List (Except Unit Bool)) :
    tryReconnect (Except.ok true :: rest) s =
      some ({ s with connected := true, errorConnecting := false, tryingReconnect := false, gate := none, nextGate := s.nextGate + 1 },
        [.gateCreated s.nextGate, .transportStart, .emitConnected true,
         .emitReconnected true, .emitConnected true,
         .gateNext s.nextGate true]) := by
  rw [tryReconnect]
  simp only [hs]
  simp [_connect, startPipeline, connectedCallback, reconnectedCallback]

theorem tryReconnect_replicate (n : Nat) :
    ∀ s : HubState, s.attemptReconnects = true →
    (tryReconnect (List.replicate n (Except.error ()) ++ [Except.ok true]) s).map
      (fun r => (countReconnected r.2, countConnected r.2)) = some (1, 2) := by
  induction n with
  | zero =>
    intro s hs
    rw [List.replicate_zero, List.nil_append, tryReconnect_ok_true s hs]
    simp [countReconnected, countConnected]
  | succ n ih =>
    intro s hs
    rw [List.replicate_succ, List.cons_append, tryReconnect_error_cons s hs]
    have ihs := ih
      { s with tryingReconnect := true, gate := some s.nextGate, nextGate := s.nextGate + 1, connected := false, errorConnecting := true }
      (by simp [hs])
    cases hopt : tryReconnect
        (List.replicate n (Except.error ()) ++ [Except.ok true])
        { s with tryingReconnect := true, gate := some s.nextGate, nextGate := s.nextGate + 1, connected := false, errorConnecting := true } with
    | none => rw [hopt] at ihs; simp at ihs
    | some r =>
      rw [hopt] at ihs
      simp only [Option.map_some', Option.some.injEq, Prod.mk.injEq] at ihs ⊢
      obtain ⟨i1, i2⟩ := ihs
      constructor
      · simp only [countReconnected, List.filter_append] at i1 ⊢
        simpa using i1
      · simp only [countConnected, List.filter_append] at i2 ⊢
        simpa using i2

/-- Claim C2, amended: while a reconnect gate is open no call reaches the
wire — an `invoke` made with the gate open resolves the gate first (and
issues nothing at all when the gate resolves false); but when
`attemptReconnects` is false a disconnect leaves no gate behind, and an
`invoke` made in that state issues the transport call immediately even
though the connection is known to be down. -/
theorem invoke_gate_order_amended (p : List String) (g : Nat)
    (hub method : String) (args : List JsVal) (gv : Nat → Bool)
    (tr : String → List JsVal → Except JsVal JsVal) (gar : Option Nat)
    (s : HubState) (hp : hub ∈ p) (hg : gv g = false)
    (h1 : s.tryingReconnect = false) (h2 : s.attemptReconnects = false)
    (h3 : s.gate = none) :
    runProc gv tr gar (invoke p (some g) hub method args) =
      (.error (.str "SignalR disconnected"), [.gateRes g false]) ∧
    disconnectedCallback [] s = some (s, [.emitDisconnected s.connected]) ∧
    (runProc gv tr gar (invoke p s.gate hub method args)).2.head? =
      some (.callEv hub method args) := by
  refine ⟨?_, ?_, ?_⟩
  · simp [invoke, hp, gatedInvoke, runProc, hg]
  · simp [disconnectedCallback, h1, h2]
  · rw [h3]
    simp [invoke, hp, runProc]

theorem invoke_gate_order_amended_witness :
    ("chatHub" ∈ ["chatHub"]) ∧
    ((fun _ : Nat => false) 0 = false) ∧
    noReconnectState.tryingReconnect = false ∧
    noReconnectState.attemptReconnects = false ∧
    noReconnectState.gate = none ∧
    (runProc (fun _ => false) (fun _ _ => Except.ok (JsVal.num 1)) none
        (invoke ["chatHub"] (some 0) "chatHub" "send" [JsVal.str "x"]) =
      (.error (.str "SignalR disconnected"), [.gateRes 0 false]) ∧
     disconnectedCallback [] noReconnectState =
      some (noReconnectState, [.emitDisconnected noReconnectState.connected]) ∧
     (runProc (fun _ => false) (fun _ _ => Except.ok (JsVal.num 1)) none
        (invoke ["chatHub"] noReconnectState.gate "chatHub" "send"
          [JsVal.str "x"])).2.head? =
      some (.callEv "chatHub" "send" [JsVal.str "x"])) :=
  ⟨by decide, rfl, rfl, rfl, rfl,
   invoke_gate_order_amended ["chatHub"] 0 "chatHub" "send" [JsVal.str "x"]
     (fun _ => false) (fun _ _ => Except.ok (JsVal.num 1)) none
     noReconnectState (by decide) rfl rfl rfl rfl⟩

/-- Claim C5, amended: a `connect()` made while a reconnect attempt is in
flight is handed the currently open gate and starts no second, parallel
connection attempt (no transport start, no state change beyond recording
the options); the caller observes `true` when the in-flight attempt
succeeds (that attempt resolves the gate with true), but when the attempt
fails the retry replaces the gate without resolving it, so the caller
observes no outcome. -/
theorem connect_during_reconnect_amended (sp : HubState) (ar : Bool)
    (o : Except Unit Bool) (rest : List (Except Unit Bool))
    (h1 : sp.attemptReconnects = true) :
    connect ar o { sp with tryingReconnect := true, gate := some sp.nextGate, nextGate := sp.nextGate + 1 } =
      (.waitGate sp.nextGate,
       { sp with tryingReconnect := true, gate := some sp.nextGate, nextGate := sp.nextGate + 1, attemptReconnects := ar }, []) ∧
    tryReconnect (Except.ok true :: rest) sp =
      some ({ sp with connected := true, errorConnecting := false, tryingReconnect := false, gate := none, nextGate := sp.nextGate + 1 },
        [.gateCreated sp.nextGate, .transportStart, .emitConnected true,
         .emitReconnected true, .emitConnected true,
         .gateNext sp.nextGate true]) := by
  constructor
  · simp [connect, _connect]
  · exact tryReconnect_ok_true sp h1 rest

theorem connect_during_reconnect_amended_witness :
    initialState.attemptReconnects = true ∧
    (connect true (.ok true) { initialState with tryingReconnect := true, gate := some initialState.nextGate, nextGate := initialState.nextGate + 1 } =
      (.waitGate initialState.nextGate,
       { initialState with tryingReconnect := true, gate := some initialState.nextGate, nextGate := initialState.nextGate + 1, attemptReconnects := true },
       []) ∧
     tryReconnect [Except.ok true] initialState =
      some ({ initialState with connected := true, errorConnecting := false, tryingReconnect := false, gate := none, nextGate := initialState.nextGate + 1 },
        [.gateCreated initialState.nextGate, .transportStart,
         .emitConnected true, .emitReconnected true, .emitConnected true,
         .gateNext initialState.nextGate true])) :=
  ⟨rfl, connect_during_reconnect_amended initialState true (.ok true) [] rfl⟩

/-- Claim C6, amended: in the scenario where the transport reports an
unexpected disconnect with `attemptReconnects` set, `n` reconnect attempts
fail and the next succeeds, exactly one reconnected notification and
exactly two connected notifications fire for the successful reconnect (one
from the connect pipeline's connected callback, one from the reconnected
callback). -/
theorem reconnect_notification_counts_amended (n : Nat) (s : HubState)
    (h1 : s.attemptReconnects = true) (h2 : s.tryingReconnect = false) :
    (reconnectScenario n s).map
      (fun r => (countReconnected r.2, countConnected r.2)) = some (1, 2) := by
  have ihs := tryReconnect_replicate n { s with connected := false }
    (by simp [h1])
  rw [reconnectScenario, disconnectedCallback]
  simp only [h2, if_false, h1, if_true]
  rw [Option.map_eq_some'] at ihs
  obtain ⟨r, hr, hcounts⟩ := ihs
  simp only [Prod.mk.injEq] at hcounts
  obtain ⟨i1, i2⟩ := hcounts
  simp only [h1, h2] at hr
  simp [hr]
  constructor
  · simpa [countReconnected] using i1
  · simpa [countConnected] using i2

theorem reconnect_notification_counts_amended_witness :
    connectedState.attemptReconnects = true ∧
    connectedState.tryingReconnect = false ∧
    (reconnectScenario 3 connectedState).map
      (fun r => (countReconnected r.2, countConnected r.2)) = some (1, 2) :=
  ⟨rfl, rfl, reconnect_notification_counts_amended 3 connectedState rfl rfl⟩

/-- Claim C10, amended: `errorConnecting` is set to true by any failed
connect attempt, and recomputed to the negation of `connected` by every
completed connect attempt — so a later successful (re)connect clears it
back to false; the other lifecycle callbacks (reconnecting, reconnected,
disconnected outside the connect pipeline) never change it. -/
theorem errorConnecting_behaviour_amended (s : HubState) :
    (_connect true (.error ()) s).2.1.errorConnecting = true ∧
    (_connect true (.ok true) s).2.1.errorConnecting = false ∧
    (recconectingCallback s).1.errorConnecting = s.errorConnecting ∧
    (reconnectedCallback s).1.errorConnecting = s.errorConnecting ∧
    (disconnectedCallback [] s).elim True
      (fun r => r.1.errorConnecting = s.errorConnecting) := by
  refine ⟨?_, ?_, ?_, ?_, ?_⟩
  · simp [_connect, startPipeline, connectionErrorCallback]
  · simp [_connect, startPipeline, connectedCallback]
  · simp [recconectingCallback]
  · simp [reconnectedCallback]
  · by_cases h1 : s.tryingReconnect
    · simp [disconnectedCallback, h1]
    · by_cases h2 : s.attemptReconnects
      · simp [disconnectedCallback, h1, h2, tryReconnect]
      · simp [disconnectedCallback, h1, h2]

end HubService
